import Mathlib

/-
Verification development for the PredictionSystem frontend
(src/frontend/prediction_form/src/App.jsx).

The development shallowly embeds the request-orchestration and
live-aggregation core of App.jsx:

  - the promise chains of the two backend calls (lines 519-544),
  - the submission orchestrator handlePrediction (lines 510-586),
  - the Firestore history listener (lines 477-485),
  - the aggregation and color assignment of PredictionPieChart
    (lines 157-208) together with the theme palette (lines 30-48),
  - the bulk clear handleClearHistory (lines 592-617),
  - the form input coercion handleInputChange (lines 307-316).

External collaborators (the HTTP transport and the Firestore store) are
modelled at their boundary exactly as section 6 and section 4.3 of the
specification describe them: a backend response is either a transport
failure or a status plus an optional JSON detail field plus a typed
body; the store assigns fresh ids on append, returns the current
contents on read, deletes a batch of ids on commit, and pushes the
current contents to subscribers after each change.

Numbers carried by the data (probabilities, SHAP weights, form values)
are modelled as rationals; no arithmetic is ever performed on them by
the embedded core, they are only stored and compared.
-/

namespace PredictionApp

/-! ## JavaScript numbers and form input coercion

Models handleInputChange of PredictionForm (App.jsx lines 307-316):

  const newValue = value === eh empty eh ? empty : parseFloat(value);

A JavaScript number is either NaN or a rational value.  parseFloat
reads the longest decimal-literal prefix (optional sign, integer part,
optional fraction part) and yields NaN when no digits are found; this
covers the whole value domain produced by the number inputs and selects
of the form (plain decimal literals).
-/

inductive JsNumber : Type where
  | nan : JsNumber
  | val (q : Rat) : JsNumber
deriving DecidableEq, Repr

/-- Numeric value of a list of decimal digit characters. -/
def digitsVal (l : List Char) : Nat :=
  l.foldl (fun a c => a * 10 + (c.toNat - 48)) 0

/-- Model of JavaScript parseFloat on the decimal literals produced by the
form inputs: optional sign, digit run, optional dot and digit run; NaN
when no digit is found. -/
def parseFloat (s : String) : JsNumber :=
  let chars := s.toList
  let signAndRest : Int × List Char :=
    match chars with
    | '-' :: t => (-1, t)
    | '+' :: t => (1, t)
    | t => (1, t)
  let intPart := signAndRest.2.takeWhile Char.isDigit
  let rest := signAndRest.2.dropWhile Char.isDigit
  let fracPart :=
    match rest with
    | '.' :: t => t.takeWhile Char.isDigit
    | _ => []
  if intPart = [] && fracPart = [] then JsNumber.nan
  else if fracPart = [] then
    JsNumber.val ((signAndRest.1 * (digitsVal intPart : Int) : Int) : Rat)
  else
    JsNumber.val (signAndRest.1 *
      ((digitsVal intPart : Rat) + (digitsVal fracPart : Rat) / ((10 : Rat) ^ fracPart.length)))

/-- A value stored in the formData state object: either a JavaScript
string (the code only ever stores the empty string) or a number. -/
inductive FormVal : Type where
  | str (s : String) : FormVal
  | num (n : JsNumber) : FormVal
deriving DecidableEq, Repr

/-- The coercion applied by handleInputChange to one raw input value
(App.jsx line 311): keep the empty string as is, otherwise parseFloat. -/
def handleInputValue (value : String) : FormVal :=
  if value = "" then FormVal.str "" else FormVal.num (parseFloat value)

/-- A feature vector as held in the formData state: field name to value. -/
abbrev FormData := List (String × FormVal)

/-! ## Backend calls

Models the two promise chains of handlePrediction (App.jsx lines
519-544).  A fetch either fails at the transport or yields a response
with a success flag, an optional detail field of the JSON error body
(section 6 of the specification: failure bodies are JSON with a detail
string) and a typed success body.
-/

/-- Result of one fetch at the transport boundary. -/
inductive FetchResult (ρ : Type) : Type where
  | netError (msg : String) : FetchResult ρ
  | response (ok : Bool) (detail : Option String) (data : ρ) : FetchResult ρ
deriving DecidableEq, Repr

/-- Settled outcome of one backend call. -/
inductive Outcome (ρ : Type) : Type where
  | ok (r : ρ) : Outcome ρ
  | error (msg : String) : Outcome ρ
deriving DecidableEq, Repr

/-- JavaScript truthiness fallback on an optional string, modelling
errorData.detail followed by the or-else operator with a generic
message: an absent or empty detail is falsy and selects the generic
message. -/
def jsOrString (d : Option String) (g : String) : String :=
  match d with
  | some s => if s = "" then g else s
  | none => g

/-- The promise chain of one backend call (App.jsx lines 519-530 and
533-544): a transport failure rejects with its own message; a non-ok
status rejects with the detail field of the body when truthy, otherwise
with the generic message; an ok status resolves with the parsed body. -/
def callOutcome {ρ : Type} (generic : String) : FetchResult ρ → Outcome ρ
  | FetchResult.netError msg => Outcome.error msg
  | FetchResult.response ok detail data =>
      if ok then Outcome.ok data else Outcome.error (jsOrString detail generic)

/-- Generic message of the classification chain (App.jsx line 526). -/
def predictGeneric : String := "Something went wrong with the prediction."

/-- Generic message of the explanation chain (App.jsx line 540). -/
def shapGeneric : String := "Something went wrong with the SHAP explanation."

/-- Success body of the classification endpoint. -/
structure PredResp : Type where
  prediction : Int
  probability_has_disease : Rat
deriving DecidableEq, Repr

/-- Success body of the explanation endpoint. -/
structure ShapResp : Type where
  positive_features : List (String × Rat)
  negative_features : List (String × Rat)
deriving DecidableEq, Repr

/-! ## History entries and the submission orchestrator

Models handlePrediction (App.jsx lines 510-586).  Its inputs are the
selected disease, the form data, whether the store handle db and the
user identity are set, the transport results of the two fetches, and
whether the addDoc write is accepted by the store.

The code builds both promise chains before awaiting anything, awaits
Promise.allSettled of the pair, then handles the classification result
(on success setPrediction with the body and, when db and userId are
set, await addDoc of the history document), then handles the
explanation result.  A rejection of addDoc jumps to the catch block at
lines 579-582, which replaces the prediction with a fixed connection
error and resets shapData to null, skipping the explanation handling;
the finally block always resets isLoading.
-/

/-- The data of one history document as passed to addDoc (App.jsx lines
559-565).  The timestamp field is the server-assigned creation time
sentinel and carries no client data, so it is not modelled. -/
structure HistoryData : Type where
  disease_name : String
  prediction_result : Int
  probability : Rat
  formData : FormData
deriving DecidableEq, Repr

/-- The history document built from a successful classification body and
the submitted vector (App.jsx lines 559-565). -/
def mkHistoryData (disease : String) (r : PredResp) (fd : FormData) : HistoryData :=
  { disease_name := disease
    prediction_result := r.prediction
    probability := r.probability_has_disease
    formData := fd }

/-- What the UI displays for one call: the parsed success body or an
object with an error message (setPrediction and setShapData receive
exactly these two shapes). -/
inductive Display (ρ : Type) : Type where
  | ok (r : ρ) : Display ρ
  | err (msg : String) : Display ρ
deriving DecidableEq, Repr

/-- The backend base URL (App.jsx line 515). -/
def backendUrl : String := "https://predictionsystem-fwa7.onrender.com"

/-- Request URL of the classification call (App.jsx line 519). -/
def predictUrl (disease : String) : String := backendUrl ++ "/predict/" ++ disease

/-- Request URL of the explanation call (App.jsx line 533). -/
def explainUrl (disease : String) : String := backendUrl ++ "/explain/" ++ disease

/-- Observable state of one run of handlePrediction: the final values of
the React state cells touched by it, the list of requests issued, the
list of addDoc invocations issued, and the settled pair delivered by
Promise.allSettled. -/
structure SubmitState : Type where
  isLoading : Bool
  prediction : Option (Display PredResp)
  shapData : Option (Display ShapResp)
  requests : List String
  appends : List HistoryData
  settled : Outcome PredResp × Outcome ShapResp
deriving DecidableEq, Repr

/-- Records the explanation result (App.jsx lines 573-578): on
fulfilment setShapData with the body, on rejection setShapData with the
rejection message. -/
def applyShap (s : SubmitState) (sr : Outcome ShapResp) : SubmitState :=
  match sr with
  | Outcome.ok v => { s with shapData := some (Display.ok v) }
  | Outcome.error m => { s with shapData := some (Display.err m) }

/-- The try block of handlePrediction (App.jsx lines 517-578), returning
the state on normal completion or, when the awaited addDoc rejects, the
state accumulated at the point of the throw (the only statement inside
the try that can reject after allSettled). -/
def handlePredictionTry (disease : String) (fd : FormData) (dbSet userSet : Bool)
    (pb : FetchResult PredResp) (sb : FetchResult ShapResp) (appendOk : Bool) :
    Except SubmitState SubmitState :=
  let pr := callOutcome predictGeneric pb
  let sr := callOutcome shapGeneric sb
  let s0 : SubmitState :=
    { isLoading := true
      prediction := none
      shapData := none
      requests := [predictUrl disease, explainUrl disease]
      appends := []
      settled := (pr, sr) }
  match pr with
  | Outcome.ok result =>
      let s1 := { s0 with prediction := some (Display.ok result) }
      if dbSet && userSet then
        let s2 := { s1 with appends := [mkHistoryData disease result fd] }
        if appendOk then Except.ok (applyShap s2 sr) else Except.error s2
      else
        Except.ok (applyShap s1 sr)
  | Outcome.error m =>
      Except.ok (applyShap { s0 with prediction := some (Display.err m) } sr)

/-- The connection error message set by the catch block (App.jsx line 581). -/
def connectError : String := "Failed to connect to the backend server."

/-- One full run of handlePrediction (App.jsx lines 510-586): the try
block, the catch block replacing the prediction with the connection
error and resetting shapData, and the finally block resetting
isLoading.  A total function: no exception escapes. -/
def handlePrediction (disease : String) (fd : FormData) (dbSet userSet : Bool)
    (pb : FetchResult PredResp) (sb : FetchResult ShapResp) (appendOk : Bool) :
    SubmitState :=
  match handlePredictionTry disease fd dbSet userSet pb sb appendOk with
  | Except.ok s => { s with isLoading := false }
  | Except.error s =>
      { s with
        prediction := some (Display.err connectError)
        shapData := none
        isLoading := false }

/-! ## History snapshots, the listener, and the aggregation view

Models the Firestore documents of the prediction_history collection,
the onSnapshot listener (App.jsx lines 477-485) which walks the
snapshot and pushes disease_name for the documents whose
prediction_result is strictly equal to 1, and the diseaseCounts
reduction of PredictionPieChart (App.jsx lines 161-164) which folds the
history array into a plain object counting occurrences.

A JavaScript object with string keys is modelled by JsMap: the list of
its own keys in insertion order (the order Object.keys returns for
non-index string keys) together with a total valuation that is zero off
the key list, which models the or-else-zero read of an absent property.
-/

/-- One stored document: the store-assigned id and the data. -/
structure HistoryDoc : Type where
  id : Nat
  data : HistoryData
deriving DecidableEq, Repr

/-- The list the onSnapshot listener derives from a snapshot (App.jsx
lines 478-485): disease_name of exactly the documents whose
prediction_result equals 1. -/
def snapshotHistory (snap : List HistoryDoc) : List String :=
  (snap.filter (fun d => d.data.prediction_result == 1)).map (fun d => d.data.disease_name)

/-- A JavaScript object used as a counter map: keys in insertion order
and a total valuation. -/
structure JsMap : Type where
  keys : List String
  val : String → Nat

/-- The empty object literal the reduce starts from. -/
def jsMapEmpty : JsMap := { keys := [], val := fun _ => 0 }

/-- One step of the diseaseCounts reduce (App.jsx line 162): increment
the property, creating it at the end of the key order when absent. -/
def bumpCount (m : JsMap) (d : String) : JsMap :=
  { keys := if d ∈ m.keys then m.keys else m.keys ++ [d]
    val := fun k => if k = d then m.val d + 1 else m.val k }

/-- The diseaseCounts reduction (App.jsx lines 161-164). -/
def diseaseCounts (history : List String) : JsMap :=
  history.foldl bumpCount jsMapEmpty

/-- Sum of the counts over the own keys of the object, the total mass of
the aggregate view. -/
def sumCounts (m : JsMap) : Nat := (m.keys.map m.val).sum

/-- The aggregate view of one snapshot: the listener followed by the
counting reduction. -/
def aggregateCounts (snap : List HistoryDoc) : JsMap :=
  diseaseCounts (snapshotHistory snap)

/-! ## Chart color assignment

Models the COLORS array of PredictionPieChart (App.jsx line 173, values
from the theme palette at lines 30-48) and the fill of the cell of each
pieChartData entry (App.jsx lines 193-195): the entry at position index
of Object.keys of diseaseCounts gets COLORS at index modulo 4.
-/

/-- The palette: primary, success, error, secondary of the theme. -/
def COLORS : List String := ["#2196f3", "#4caf50", "#f44336", "#ff9800"]

/-- The fill color the chart assigns to one disease present in the
history: its position in the key order of diseaseCounts, modulo the
palette length.  The default is the fill of the Pie element, never
reached for a disease that occurs in the history. -/
def cellFill (history : List String) (disease : String) : String :=
  COLORS.getD (((diseaseCounts history).keys.indexOf disease) % COLORS.length) "#8884d8"

/-- The fill color of one disease as rendered from a store snapshot. -/
def chartColor (snap : List HistoryDoc) (disease : String) : String :=
  cellFill (snapshotHistory snap) disease

/-! ## Clearing the history

Models handleClearHistory (App.jsx lines 592-617).  The store is the
current list of documents; pending is the list of documents appended by
concurrent submitters between the getDocs read and the batch commit
(fresh documents, observed by the store after the read); commitOk tells
whether the batch commit is accepted.  The guard at line 593 returns
before any effect when db or userId is unset.
-/

/-- Observable state of one run of handleClearHistory: whether the
clearing flag was ever set, whether the getDocs read was performed, the
ids the batch deletes, the notification dialog content, and the store
contents afterwards. -/
structure ClearState : Type where
  clearingFlagSet : Bool
  readPerformed : Bool
  deletesIssued : List Nat
  message : Option (String × String)
  store : List HistoryDoc
deriving DecidableEq, Repr

/-- One full run of handleClearHistory (App.jsx lines 592-617): guard,
read of the current ids, batched delete of exactly that set, success or
failure dialog.  On a successful commit the store keeps exactly the
documents whose id is not in the read set; on a failed commit the
deletes do not apply; in both cases the concurrent appends are
observed. -/
def handleClearHistory (dbSet userSet : Bool) (commitOk : Bool)
    (store pending : List HistoryDoc) : ClearState :=
  if dbSet && userSet then
    let snapshotIds := store.map (fun d => d.id)
    if commitOk then
      { clearingFlagSet := true
        readPerformed := true
        deletesIssued := snapshotIds
        message := some ("Success", "Prediction history cleared successfully.")
        store := (store ++ pending).filter (fun d => !(snapshotIds.contains d.id)) }
    else
      { clearingFlagSet := true
        readPerformed := true
        deletesIssued := snapshotIds
        message := some ("Error", "Failed to clear history. Please try again.")
        store := store ++ pending }
  else
    { clearingFlagSet := false
      readPerformed := false
      deletesIssued := []
      message := none
      store := store ++ pending }

/-- The snapshot the subscription delivers after a change: the current
contents of the collection (boundary model of onSnapshot, section 4.3
of the specification). -/
def nextSnapshot (s : ClearState) : List HistoryDoc := s.store

/-! ## Helper lemmas about the counting object -/

/-- The counts of an object reached by the reduce from the empty literal:
every key holds exactly its number of occurrences so far. -/
theorem foldl_bumpCount_val (h : List String) (m : JsMap) (c : String) :
    (h.foldl bumpCount m).val c = m.val c + h.count c := by
  induction h generalizing m with
  | nil => simp
  | cons d t ih =>
      rw [List.foldl_cons, ih]
      by_cases hc : c = d
      · subst hc
        simp [bumpCount, List.count_cons]
        omega
      · have hdc : ¬(d = c) := fun hh => hc hh.symm
        simp [bumpCount, hc, List.count_cons, hdc]

/-- The value of diseaseCounts at a disease is its number of occurrences
in the history array. -/
theorem diseaseCounts_val (h : List String) (c : String) :
    (diseaseCounts h).val c = h.count c := by
  simpa [jsMapEmpty] using foldl_bumpCount_val h jsMapEmpty c

/-- Well-formedness of a counting object: the keys are distinct (a
JavaScript object has one binding per key) and the valuation is zero off
the keys (an absent property reads as zero through the or-else). -/
def JsMapWf (m : JsMap) : Prop :=
  m.keys.Nodup ∧ ∀ k, k ∉ m.keys → m.val k = 0

theorem jsMapEmpty_wf : JsMapWf jsMapEmpty :=
  ⟨List.nodup_nil, fun _ _ => rfl⟩

theorem bumpCount_wf (m : JsMap) (d : String) (hm : JsMapWf m) :
    JsMapWf (bumpCount m d) := by
  obtain ⟨hnd, hz⟩ := hm
  by_cases hd : d ∈ m.keys
  · refine ⟨by simpa [bumpCount, hd] using hnd, ?_⟩
    intro k hk
    simp only [bumpCount, if_pos hd] at hk
    have hkd : k ≠ d := fun hh => hk (hh ▸ hd)
    simp [bumpCount, hkd, hz k hk]
  · refine ⟨?_, ?_⟩
    · simp only [bumpCount, if_neg hd]
      rw [List.nodup_append]
      refine ⟨hnd, List.nodup_singleton d, ?_⟩
      intro x hx hx2
      rw [List.mem_singleton] at hx2
      exact hd (hx2 ▸ hx)
    · intro k hk
      simp only [bumpCount, if_neg hd, List.mem_append, List.mem_singleton] at hk
      push_neg at hk
      simp [bumpCount, hk.2, hz k hk.1]

/-- Incrementing one key of a distinct key list raises the mapped sum by
exactly one. -/
theorem sum_map_update (l : List String) (f : String → Nat) (d : String)
    (hnd : l.Nodup) (hd : d ∈ l) :
    (l.map (fun k => if k = d then f d + 1 else f k)).sum = (l.map f).sum + 1 := by
  induction l with
  | nil => cases hd
  | cons a t ih =>
      obtain ⟨hat, hndt⟩ := List.nodup_cons.mp hnd
      by_cases had : a = d
      · subst had
        have hmap : t.map (fun k => if k = a then f a + 1 else f k) = t.map f :=
          List.map_congr_left (fun k hk => if_neg (fun (hh : k = a) => hat (hh ▸ hk)))
        simp [hmap]
        omega
      · have hdt : d ∈ t := by
          rcases List.mem_cons.mp hd with h1 | h2
          · exact absurd h1.symm had
          · exact h2
        simp only [List.map_cons, List.sum_cons, if_neg had, ih hndt hdt]
        omega

theorem sumCounts_bumpCount (m : JsMap) (d : String) (hm : JsMapWf m) :
    sumCounts (bumpCount m d) = sumCounts m + 1 := by
  obtain ⟨hnd, hz⟩ := hm
  by_cases hd : d ∈ m.keys
  · simp only [sumCounts, bumpCount, if_pos hd]
    exact sum_map_update m.keys m.val d hnd hd
  · have hmap : m.keys.map (fun k => if k = d then m.val d + 1 else m.val k)
        = m.keys.map m.val :=
      List.map_congr_left (fun k hk => if_neg (fun (hh : k = d) => hd (hh ▸ hk)))
    simp only [sumCounts, bumpCount, if_neg hd, List.map_append, List.sum_append,
      hmap, List.map_cons, List.map_nil, List.sum_cons, List.sum_nil]
    simp [hz d hd]

theorem foldl_bumpCount_wf (h : List String) (m : JsMap) (hm : JsMapWf m) :
    JsMapWf (h.foldl bumpCount m) := by
  induction h generalizing m with
  | nil => exact hm
  | cons d t ih => exact ih (bumpCount m d) (bumpCount_wf m d hm)

theorem foldl_bumpCount_sum (h : List String) (m : JsMap) (hm : JsMapWf m) :
    sumCounts (h.foldl bumpCount m) = sumCounts m + h.length := by
  induction h generalizing m with
  | nil => simp
  | cons d t ih =>
      rw [List.foldl_cons, ih (bumpCount m d) (bumpCount_wf m d hm),
        sumCounts_bumpCount m d hm, List.length_cons]
      omega

/-- The counts of diseaseCounts sum to the length of the history array it
was folded from. -/
theorem sumCounts_diseaseCounts (h : List String) :
    sumCounts (diseaseCounts h) = h.length := by
  simpa [sumCounts, jsMapEmpty] using foldl_bumpCount_sum h jsMapEmpty jsMapEmpty_wf

/-- The key order of the object built by a foldl of bumpCount is the
first-occurrence fold of the same list. -/
theorem foldl_bumpCount_keys (h : List String) (m : JsMap) :
    (h.foldl bumpCount m).keys
      = h.foldl (fun acc d => if d ∈ acc then acc else acc ++ [d]) m.keys := by
  induction h generalizing m with
  | nil => rfl
  | cons d t ih =>
      rw [List.foldl_cons, ih, List.foldl_cons]
      rfl

/-- The order in which the diseases first occur in the history array,
which is the order Object.keys reports for the counts object. -/
def firstOccur (h : List String) : List String :=
  h.foldl (fun acc d => if d ∈ acc then acc else acc ++ [d]) []

/-- Object.keys of diseaseCounts lists the diseases in first-occurrence
order of the history array. -/
theorem diseaseCounts_keys (h : List String) :
    (diseaseCounts h).keys = firstOccur h :=
  foldl_bumpCount_keys h jsMapEmpty

/-! ## Claim theorems -/

/-- C1: for every submission of a configured session (store handle and
user identity set, the precondition the excluded bootstrap layer
establishes), the orchestrator invokes the history append exactly once,
with the submitted category, the returned label and probability and the
original vector, when the classification call settles successfully, and
never invokes it when the classification call fails; in both cases this
is independent of the explanation outcome and of the fate of the write
itself. -/
theorem submit_append_iff_classification_ok :
    ∀ (disease : String) (fd : FormData) (pb : FetchResult PredResp)
      (sb : FetchResult ShapResp) (appendOk : Bool),
      (handlePrediction disease fd true true pb sb appendOk).appends
        = match callOutcome predictGeneric pb with
          | Outcome.ok r => [mkHistoryData disease r fd]
          | Outcome.error _ => [] := by
  intro disease fd pb sb appendOk
  cases hpr : callOutcome predictGeneric pb <;>
    cases hsr : callOutcome shapGeneric sb <;>
      cases appendOk <;>
        simp [handlePrediction, handlePredictionTry, applyShap, hpr, hsr]

/-- C4: for every submission, both backend requests are issued no matter
how either call turns out, the orchestrator produces its result only
from the settled pair delivered by allSettled, each settled outcome is a
function of its own transport result alone, and the run always
completes with the loading flag cleared (the submit operation is a
total function of the transport results: every failure is captured, none
escapes). -/
theorem submit_settles_both_and_total :
    ∀ (disease : String) (fd : FormData) (dbSet userSet : Bool)
      (pb : FetchResult PredResp) (sb : FetchResult ShapResp) (appendOk : Bool),
      (handlePrediction disease fd dbSet userSet pb sb appendOk).requests
          = [predictUrl disease, explainUrl disease]
      ∧ (handlePrediction disease fd dbSet userSet pb sb appendOk).settled
          = (callOutcome predictGeneric pb, callOutcome shapGeneric sb)
      ∧ (handlePrediction disease fd dbSet userSet pb sb appendOk).isLoading = false := by
  intro disease fd dbSet userSet pb sb appendOk
  cases hpr : callOutcome predictGeneric pb <;>
    cases hsr : callOutcome shapGeneric sb <;>
      cases dbSet <;> cases userSet <;> cases appendOk <;>
        simp [handlePrediction, handlePredictionTry, applyShap, hpr, hsr]

/-- C2 counterexample: a concrete submission whose classification call
succeeds with label one and probability one and whose explanation call
succeeds, but whose history write is rejected: the displayed
classification outcome is the generic connection error, not the
successful prediction, and the explanation display is reset. -/
theorem append_failure_alters_result_cx :
    (handlePrediction "heart" [] true true
        (FetchResult.response true none ⟨1, 1⟩)
        (FetchResult.response true none ⟨[], []⟩) false).prediction
      = some (Display.err connectError)
    ∧ (handlePrediction "heart" [] true true
        (FetchResult.response true none ⟨1, 1⟩)
        (FetchResult.response true none ⟨[], []⟩) false).prediction
      ≠ some (Display.ok ⟨1, 1⟩)
    ∧ (handlePrediction "heart" [] true true
        (FetchResult.response true none ⟨1, 1⟩)
        (FetchResult.response true none ⟨[], []⟩) false).shapData
      ≠ some (Display.ok ⟨[], []⟩) := by
  refine ⟨rfl, ?_, ?_⟩ <;> decide

/-- C2 amended: when the classification call succeeds but the history
write is rejected, the rejection is caught inside the submit operation
and never re-raised (the run completes with the loading flag cleared and
the append was invoked once), but it does alter the displayed result:
the classification display becomes the fixed connection error message
and the explanation display is reset to empty, whatever the explanation
call returned. -/
theorem append_failure_caught_but_overwrites :
    ∀ (disease : String) (fd : FormData) (pb : FetchResult PredResp)
      (sb : FetchResult ShapResp) (r : PredResp),
      callOutcome predictGeneric pb = Outcome.ok r →
      (handlePrediction disease fd true true pb sb false).prediction
          = some (Display.err connectError)
      ∧ (handlePrediction disease fd true true pb sb false).shapData = none
      ∧ (handlePrediction disease fd true true pb sb false).isLoading = false
      ∧ (handlePrediction disease fd true true pb sb false).appends
          = [mkHistoryData disease r fd] := by
  intro disease fd pb sb r hpr
  simp [handlePrediction, handlePredictionTry, hpr]

/-- C2 witness: the amended statement at a concrete submission. -/
theorem append_failure_caught_but_overwrites_witness :
    (handlePrediction "diabetes" [] true true
        (FetchResult.response true none ⟨0, 1⟩)
        (FetchResult.netError "boom") false).prediction
      = some (Display.err connectError)
    ∧ (handlePrediction "diabetes" [] true true
        (FetchResult.response true none ⟨0, 1⟩)
        (FetchResult.netError "boom") false).shapData = none
    ∧ (handlePrediction "diabetes" [] true true
        (FetchResult.response true none ⟨0, 1⟩)
        (FetchResult.netError "boom") false).isLoading = false
    ∧ (handlePrediction "diabetes" [] true true
        (FetchResult.response true none ⟨0, 1⟩)
        (FetchResult.netError "boom") false).appends
      = [mkHistoryData "diabetes" ⟨0, 1⟩ []] :=
  append_failure_caught_but_overwrites "diabetes" []
    (FetchResult.response true none ⟨0, 1⟩) (FetchResult.netError "boom") ⟨0, 1⟩ rfl

/-- C3 counterexample: a snapshot holding one entry whose stored label is
zero: the listener drops it, so the aggregate counts sum to zero while
the snapshot has one entry. -/
theorem aggregate_sum_ne_snapshot_length_cx :
    sumCounts (aggregateCounts ([⟨0, ⟨"heart", 0, 0, []⟩⟩] : List HistoryDoc)) = 0
    ∧ ([⟨0, ⟨"heart", 0, 0, []⟩⟩] : List HistoryDoc).length = 1
    ∧ sumCounts (aggregateCounts ([⟨0, ⟨"heart", 0, 0, []⟩⟩] : List HistoryDoc))
        ≠ ([⟨0, ⟨"heart", 0, 0, []⟩⟩] : List HistoryDoc).length := by
  refine ⟨rfl, rfl, ?_⟩
  decide

/-- C3 amended: for every snapshot, the per-category counts of the
aggregate view sum to the number of entries of the snapshot whose
stored label equals one, the entries the listener keeps; each such
entry is counted under exactly one category. -/
theorem aggregate_sum_eq_positive_count :
    ∀ snap : List HistoryDoc,
      sumCounts (aggregateCounts snap)
        = (snap.filter (fun d => d.data.prediction_result == 1)).length := by
  intro snap
  unfold aggregateCounts snapshotHistory
  rw [sumCounts_diseaseCounts, List.length_map]

/-- C5: after a successful clear with no concurrent append, in a
configured session, the next snapshot delivered by the subscription has
zero entries and the aggregate view of it is the empty mapping: no
keys, count zero everywhere. -/
theorem clear_then_empty_snapshot :
    ∀ store : List HistoryDoc,
      nextSnapshot (handleClearHistory true true true store []) = []
      ∧ (aggregateCounts (nextSnapshot (handleClearHistory true true true store []))).keys = []
      ∧ ∀ c, (aggregateCounts (nextSnapshot (handleClearHistory true true true store []))).val c
          = 0 := by
  intro store
  have hempty : nextSnapshot (handleClearHistory true true true store []) = [] := by
    simp [nextSnapshot, handleClearHistory, List.filter_eq_nil_iff, List.mem_map]
    intro d hd
    exact ⟨d, hd, rfl⟩
  refine ⟨hempty, ?_, ?_⟩ <;> rw [hempty] <;> intros <;> rfl

/-- C10: when the store handle or the user identity is unset, the clear
operation returns at its guard: the clearing flag is never set, no read
is performed, no delete is issued, no notification is produced, and the
store is left exactly as the concurrent appends of other agents make
it (unchanged by the operation itself). -/
theorem clear_noop_when_unset :
    ∀ (dbSet userSet commitOk : Bool) (store pending : List HistoryDoc),
      dbSet = false ∨ userSet = false →
      handleClearHistory dbSet userSet commitOk store pending
        = { clearingFlagSet := false
            readPerformed := false
            deletesIssued := []
            message := none
            store := store ++ pending } := by
  rintro dbSet userSet commitOk store pending (rfl | rfl)
  · simp [handleClearHistory]
  · cases dbSet <;> simp [handleClearHistory]

/-- C10 witness: the guard at a concrete unset store handle. -/
theorem clear_noop_when_unset_witness :
    handleClearHistory false true true ([⟨0, ⟨"heart", 1, 0, []⟩⟩] : List HistoryDoc) []
      = { clearingFlagSet := false
          readPerformed := false
          deletesIssued := []
          message := none
          store := ([⟨0, ⟨"heart", 1, 0, []⟩⟩] : List HistoryDoc) ++ [] } :=
  clear_noop_when_unset false true true _ [] (Or.inl rfl)

/-- C6 counterexample: two snapshots holding the same two positive
entries in opposite orders: the heart category is rendered with the
primary palette color in one and the success palette color in the
other, so the color is not a function of a fixed static category list
and differs between the two renders. -/
theorem color_depends_on_insertion_order_cx :
    chartColor ([⟨0, ⟨"heart", 1, 0, []⟩⟩, ⟨1, ⟨"diabetes", 1, 0, []⟩⟩] : List HistoryDoc) "heart"
      = "#2196f3"
    ∧ chartColor ([⟨0, ⟨"diabetes", 1, 0, []⟩⟩, ⟨1, ⟨"heart", 1, 0, []⟩⟩] : List HistoryDoc) "heart"
      = "#4caf50"
    ∧ chartColor ([⟨0, ⟨"heart", 1, 0, []⟩⟩, ⟨1, ⟨"diabetes", 1, 0, []⟩⟩] : List HistoryDoc) "heart"
      ≠ chartColor ([⟨0, ⟨"diabetes", 1, 0, []⟩⟩, ⟨1, ⟨"heart", 1, 0, []⟩⟩] : List HistoryDoc)
          "heart" := by
  refine ⟨rfl, rfl, ?_⟩
  decide

/-- C6 amended: the color assigned to a category is the palette entry at
the position of that category in the first-occurrence order of the
current derived history, modulo the palette length; hence two renders
agree on all colors exactly when the first-occurrence orders of their
histories agree, not unconditionally. -/
theorem color_function_of_first_occurrence :
    (∀ (history : List String) (disease : String),
      cellFill history disease
        = COLORS.getD (((firstOccur history).indexOf disease) % COLORS.length) "#8884d8")
    ∧ ∀ (h1 h2 : List String) (disease : String),
        firstOccur h1 = firstOccur h2 → cellFill h1 disease = cellFill h2 disease := by
  constructor
  · intro history disease
    unfold cellFill
    rw [diseaseCounts_keys]
  · intro h1 h2 disease hfo
    unfold cellFill
    rw [diseaseCounts_keys, diseaseCounts_keys, hfo]

/-- C6 witness: the amended statement at concrete histories sharing the
same first-occurrence order. -/
theorem color_function_of_first_occurrence_witness :
    cellFill ["heart"] "heart" = cellFill ["heart", "heart"] "heart" :=
  color_function_of_first_occurrence.2 ["heart"] ["heart", "heart"] "heart" rfl

/-- C7: the aggregate view is a pure function of the snapshot and is
order-independent: permuting the entries of a snapshot leaves the count
of every category unchanged. -/
theorem aggregate_perm_invariant :
    ∀ (s1 s2 : List HistoryDoc), s1.Perm s2 →
      ∀ c, (aggregateCounts s1).val c = (aggregateCounts s2).val c := by
  intro s1 s2 hp c
  unfold aggregateCounts snapshotHistory
  rw [diseaseCounts_val, diseaseCounts_val]
  exact ((hp.filter _).map _).count_eq c

/-- C7 witness: the invariance at a concrete two-entry swap. -/
theorem aggregate_perm_invariant_witness :
    (aggregateCounts ([⟨0, ⟨"heart", 1, 0, []⟩⟩, ⟨1, ⟨"diabetes", 1, 0, []⟩⟩] :
        List HistoryDoc)).val "heart"
      = (aggregateCounts ([⟨1, ⟨"diabetes", 1, 0, []⟩⟩, ⟨0, ⟨"heart", 1, 0, []⟩⟩] :
        List HistoryDoc)).val "heart" :=
  aggregate_perm_invariant _ _ (List.Perm.swap _ _ _) "heart"

/-- C8 counterexample: a non-success response whose body carries a
present but empty detail field: the rejection message is the generic
message, not the value of the detail field. -/
theorem empty_detail_uses_generic_cx :
    callOutcome predictGeneric (FetchResult.response false (some "") (⟨0, 0⟩ : PredResp))
      = Outcome.error predictGeneric
    ∧ callOutcome predictGeneric (FetchResult.response false (some "") (⟨0, 0⟩ : PredResp))
      ≠ Outcome.error "" := by
  refine ⟨rfl, ?_⟩
  decide

/-- C8 amended: a backend call settles with an error exactly when the
transport fails or the status is non-success; a transport failure keeps
its own message, a non-success status uses the detail field of the body
when it is present and non-empty (truthy) and the fixed generic message
when the field is absent or empty. -/
theorem call_outcome_error_characterization :
    ∀ {ρ : Type} (g msg : String) (d : Option String) (dat : ρ),
      callOutcome g (FetchResult.netError msg) = (Outcome.error msg : Outcome ρ)
      ∧ callOutcome g (FetchResult.response true d dat) = Outcome.ok dat
      ∧ callOutcome g (FetchResult.response false none dat) = Outcome.error g
      ∧ (∀ s : String, s ≠ "" →
          callOutcome g (FetchResult.response false (some s) dat) = Outcome.error s)
      ∧ callOutcome g (FetchResult.response false (some "") dat) = Outcome.error g := by
  intro ρ g msg d dat
  refine ⟨rfl, rfl, rfl, ?_, by simp [callOutcome, jsOrString]⟩
  intro s hs
  simp [callOutcome, jsOrString, hs]

/-- C8 witness: the characterization at the classification call with a
concrete non-empty detail field. -/
theorem call_outcome_error_characterization_witness :
    callOutcome predictGeneric
        (FetchResult.response false (some "missing field") (⟨0, 0⟩ : PredResp))
      = Outcome.error "missing field" :=
  (call_outcome_error_characterization predictGeneric "x" none
    (⟨0, 0⟩ : PredResp)).2.2.2.1 "missing field" (by decide)

/-- C9: building the feature vector, an empty raw input is stored as the
empty-string sentinel and nothing else is, every non-empty raw input is
stored as a number (the parseFloat coercion), and the sentinel is
distinct both from the number zero and from NaN, so an unset field is
distinguishable from a true zero. -/
theorem input_coercion_spec :
    ∀ v : String,
      (handleInputValue v = FormVal.str "" ↔ v = "")
      ∧ (v ≠ "" → handleInputValue v = FormVal.num (parseFloat v))
      ∧ FormVal.str "" ≠ FormVal.num (JsNumber.val 0)
      ∧ FormVal.str "" ≠ FormVal.num JsNumber.nan := by
  intro v
  by_cases hv : v = ""
  · subst hv
    refine ⟨by simp [handleInputValue], by simp, by decide, by decide⟩
  · exact ⟨by simp [handleInputValue, hv], fun _ => by simp [handleInputValue, hv],
      by decide, by decide⟩

/-- C9 witness: the coercion at a concrete non-empty raw input. -/
theorem input_coercion_spec_witness :
    handleInputValue "3" = FormVal.num (parseFloat "3") :=
  (input_coercion_spec "3").2.1 (by decide)

end PredictionApp
